import Mathlib

/-!
Shallow embedding of `genpkgbuild-go` (`main.go`): a CLI tool that renders a
PKGBUILD recipe for a Go module.  Pure string helpers mirror the Go standard
library functions the program calls (`strings.TrimSpace`, `strings.Fields`,
`path.Base`, `filepath.Clean`, `filepath.Rel`, `html/template` text escaping,
package `flag` parsing), and `run` / `main` mirror the program's control flow.
External effects (TTY, filesystem, resolver, clone, shell) are inputs of an
explicit `World` record.
-/

deriving instance DecidableEq for Except

namespace Genpkgbuild

/-- The empty string, used for Go's `""`. -/
def eps : String := ""

/-- Whitespace set of Go's `unicode.IsSpace` (used by `strings.TrimSpace` and
`strings.Fields`). -/
def goIsSpace (c : Char) : Bool :=
  let n := c.toNat
  decide (n = 9 ∨ n = 10 ∨ n = 11 ∨ n = 12 ∨ n = 13 ∨ n = 32 ∨
    n = 133 ∨ n = 160 ∨ n = 5760 ∨ (8192 ≤ n ∧ n ≤ 8202) ∨
    n = 8232 ∨ n = 8233 ∨ n = 8239 ∨ n = 8287 ∨ n = 12288)

/-- Go `strings.TrimSpace`: drop leading and trailing white space. -/
def goTrimSpace (s : String) : String :=
  String.mk (((s.toList.dropWhile goIsSpace).reverse.dropWhile goIsSpace).reverse)

/-- Core of Go `strings.Fields` over the character list; `acc` holds the
current word reversed. -/
def fieldsCore : List Char → List Char → List String
  | [], [] => []
  | [], acc => String.mk acc.reverse :: []
  | c :: cs, acc =>
    if goIsSpace c then
      match acc with
      | [] => fieldsCore cs []
      | _ => String.mk acc.reverse :: fieldsCore cs []
    else fieldsCore cs (c :: acc)

/-- Go `strings.Fields`: split around runs of white space, in order. -/
def goFields (s : String) : List String :=
  fieldsCore s.toList []

/-- Replacement applied by `html/template` to one character interpolated in a
text context (its `htmlReplacementTable`). -/
def htmlEscapeChar (c : Char) : String :=
  if c = Char.ofNat 34 then "&#34;"
  else if c = Char.ofNat 38 then "&amp;"
  else if c = Char.ofNat 39 then "&#39;"
  else if c = Char.ofNat 60 then "&lt;"
  else if c = Char.ofNat 62 then "&gt;"
  else if c = Char.ofNat 0 then "�"
  else c.toString

/-- `html/template` escaping of an interpolated value in a text context. -/
def htmlEscape (s : String) : String :=
  String.join (s.toList.map htmlEscapeChar)

/-- The string `"."`. -/
def dotStr : String := "."

/-- The string `".."`. -/
def dotdotStr : String := ".."

/-- The string `"/"`. -/
def slashStr : String := "/"

/-- The string `"-"` (stdout marker for the `-o` flag). -/
def dashStr : String := "-"

/-- A single-quote character as a string (used by the template's literals). -/
def sq : String := (Char.ofNat 39).toString

/-- A newline as a string. -/
def nl : String := "\n"

/-- Go `path.Base` (lines 163 and 183 of `main.go` call it on import paths). -/
def goPathBase (p : String) : String :=
  if p = eps then dotStr
  else
    let l := (p.toList.reverse.dropWhile (fun c => c = '/')).reverse
    if l = [] then slashStr
    else String.mk (l.reverse.takeWhile (fun c => c ≠ '/')).reverse

/-- One step of the lexical `Clean` stack processing: push a component, with
`..` popping a previous component (relative paths keep leading `..`,
absolute paths drop it at the root).  `stack` is kept reversed. -/
def cleanStep (absPath : Bool) (stack : List String) (comp : String) : List String :=
  if comp = dotdotStr then
    match stack with
    | [] => if absPath then [] else comp :: []
    | top :: rest => if top = dotdotStr then comp :: stack else rest
  else comp :: stack

/-- Split a character list at `/`, keeping empty parts, as Go
`strings.Split` on the separator does; `acc` holds the current part
reversed. -/
def splitSlash : List Char → List Char → List String
  | [], acc => String.mk acc.reverse :: []
  | c :: cs, acc =>
    if c = '/' then String.mk acc.reverse :: splitSlash cs []
    else splitSlash cs (c :: acc)

/-- Go `path/filepath.Clean` with separator `/` (lexical normalisation used by
`filepath.Rel`). -/
def goClean (p : String) : String :=
  if p = eps then dotStr
  else
    let absPath := p.toList.head? = some '/'
    let comps := (splitSlash p.toList []).filter
      (fun x => decide (x ≠ eps ∧ x ≠ dotStr))
    let stack := comps.foldl (cleanStep absPath) []
    let body := String.intercalate slashStr stack.reverse
    if absPath then slashStr ++ body
    else if body = eps then dotStr else body

/-- Separator-delimited elements of a cleaned path, as scanned by Go
`filepath.Rel` (the root path `/` is the single empty element). -/
def pathComps (s : String) : List String :=
  if s = eps then []
  else if s = slashStr then eps :: []
  else splitSlash s.toList []

/-- Drop the common element prefix of two paths, as `filepath.Rel` does. -/
def relScan : List String → List String → List String × List String
  | b :: bs, t :: ts => if b = t then relScan bs ts else (b :: bs, t :: ts)
  | bs, ts => (bs, ts)

/-- Go `path/filepath.Rel` on Unix: the relative path from `base` to `targ`,
or an error when one is absolute and the other is not, or the walk would pass
through an unknown `..` prefix of `base`. -/
def goFilepathRel (base targ : String) : Except Unit String :=
  let bC := goClean base
  let tC := goClean targ
  if bC = tC then Except.ok dotStr
  else
    let b := if bC = dotStr then eps else bC
    let bAbs := b.toList.head? = some '/'
    let tAbs := tC.toList.head? = some '/'
    if bAbs ≠ tAbs then Except.error ()
    else
      let pr := relScan (pathComps b) (pathComps tC)
      if pr.1.head? = some dotdotStr then Except.error ()
      else
        match pr.1 with
        | [] => Except.ok (String.intercalate slashStr pr.2)
        | _ =>
          Except.ok (String.intercalate slashStr
            (List.replicate pr.1.length dotdotStr ++ pr.2))

/-- Relative sub-path computed by `run` (`main.go` lines 175–181):
`filepath.Rel` of the import path from the repository root, with the
same-path result `"."` normalised to the empty string. -/
def relSubPath (root imp : String) : Except Unit String :=
  match goFilepathRel root imp with
  | Except.error e => Except.error e
  | Except.ok r => Except.ok (if r = dotStr then eps else r)

/-- The record passed to the template (`TmplData` in `main.go`). -/
structure TmplData where
  PkgName : String
  Dir : String
  PkgVer : String
  Repo : String
  Root : String
  Depends : List String
  Path : String
  BinName : String
deriving DecidableEq

/-- Rendering of the `depends=` list by template line 50:
`({{range $i, $v := .Depends}}{{if $i}} {{end}}{{.}}{{end}})` with each value
single-quoted and HTML-escaped by `html/template`. -/
def depListRender (ds : List String) : String :=
  "(" ++ String.intercalate " " (ds.map (fun v => sq ++ htmlEscape v ++ sq)) ++ ")"

/-- The lines output by executing `tmpl` (`main.go` lines 31–71) on `d`, in
order; interpolated fields pass through `html/template` text escaping. -/
def tmplLines (d : TmplData) : List String :=
  let l1 := "pkgname=" ++ htmlEscape d.PkgName
  let l2 := "_pkgname=" ++ htmlEscape d.Dir
  let l3 := "pkgver=" ++ htmlEscape d.PkgVer
  let l4 := "pkgrel=1"
  let l5 := "arch=(" ++ sq ++ "i686" ++ sq ++ " " ++ sq ++ "x86_64" ++ sq ++ ")"
  let l6 := "url=" ++ sq ++ htmlEscape d.Repo ++ sq
  let l7 := "source=(" ++ sq ++ "git+git://" ++ htmlEscape d.Root ++ sq ++ ")"
  let l8 := "depends=" ++ depListRender d.Depends
  let l9 := "makedepends=(" ++ sq ++ "go" ++ sq ++ ")"
  let l10 := "sha1sums=(" ++ sq ++ "SKIP" ++ sq ++ ")"
  let l12 := "pkgver() \x7b"
  let l13 := "  cd \"$srcdir/$_pkgname\""
  let l14 := "  ( set -o pipefail"
  let l15 := "    git describe --long --tags 2>/dev/null | sed " ++ sq ++
    "s/\\([^-]*-g\\)/r\\1/;s/-/./g" ++ sq ++ " ||"
  let l16 := "    printf \"r%s.%s\" \"$(git rev-list --count HEAD)\" \"$(git rev-parse --short HEAD)\""
  let l17 := "  )"
  let l18 := "\x7d"
  let l20 := "build()\x7b"
  let l21 := "  cd \"$srcdir/$_pkgname" ++
    (if d.Path = eps then eps else slashStr ++ htmlEscape d.Path) ++ "\""
  let l22 := "  GO111MODULE=on go build -o \"$srcdir/bin/" ++ htmlEscape d.BinName ++ "\""
  let l23 := "\x7d"
  let l25 := "package() \x7b"
  let l26 := "  cd \"$srcdir/bin\""
  let l27 := "  install -Dm755 " ++ sq ++ htmlEscape d.BinName ++ sq ++
    " \"$pkgdir/usr/bin/" ++ htmlEscape d.BinName ++ "\""
  let l28 := "\x7d"
  [l1, l2, l3, l4, l5, l6, l7, l8, l9, l10, eps,
   l12, l13, l14, l15, l16, l17, l18, eps,
   l20, l21, l22, l23, eps,
   l25, l26, l27, l28]

/-- Full text produced by `tmpl.Execute` on `d` (trailing newline included). -/
def tmplRender (d : TmplData) : String :=
  String.intercalate nl (tmplLines d) ++ nl

/-- Default value of the `-o` flag. -/
def pkgbuildStr : String := "PKGBUILD"

/-- Name of the one registered flag. -/
def oFlagStr : String := "o"

/-- Result of consuming one token group in `flag.(*FlagSet).parseOne`:
either parsing stops (with the remaining arguments), or the `-o` flag was
set to `val` and parsing continues on `rem`. -/
inductive FlagStep where
  | stop (rem : List String)
  | cont (val : String) (rem : List String)
deriving DecidableEq

/-- Go `flag` package `parseOne` for a flag set whose only flag is the string
flag `o`: a non-flag token stops parsing, `--` stops parsing consuming itself,
`-o=v` sets the flag inline, `-o v` takes the next argument as value, and
anything else (bad syntax, unknown flag, missing value) is an error, on which
`flag.ExitOnError` terminates the process. -/
def parseOneFlag : List String → Except Unit FlagStep
  | [] => Except.ok (FlagStep.stop [])
  | s :: rest =>
    match s.toList with
    | [] => Except.ok (FlagStep.stop (s :: rest))
    | [_] => Except.ok (FlagStep.stop (s :: rest))
    | c0 :: c1 :: tl =>
      if c0 ≠ '-' then Except.ok (FlagStep.stop (s :: rest))
      else if c1 = '-' ∧ tl = [] then Except.ok (FlagStep.stop rest)
      else
        let namel := if c1 = '-' then tl else c1 :: tl
        match namel with
        | [] => Except.error ()
        | n0 :: _ =>
          if n0 = '-' ∨ n0 = '=' then Except.error ()
          else
            let key := String.mk (namel.takeWhile (fun c => c ≠ '='))
            if namel.any (fun c => c = '=') then
              let value := String.mk ((namel.dropWhile (fun c => c ≠ '=')).drop 1)
              if key = oFlagStr then Except.ok (FlagStep.cont value rest)
              else Except.error ()
            else
              if key = oFlagStr then
                match rest with
                | [] => Except.error ()
                | v :: rest2 => Except.ok (FlagStep.cont v rest2)
              else Except.error ()

/-- Fuel-indexed driver of `flag.(*FlagSet).Parse`; since `parseOneFlag`
consumes at least one argument whenever it continues, a fuel of
`as.length + 1` can never run out, and the fuel-exhaustion branch is dead
code. -/
def goFlagParseF : Nat → String → List String → Except Unit (String × List String)
  | 0, _, _ => Except.error ()
  | fuel + 1, o, as =>
    match parseOneFlag as with
    | Except.error _ => Except.error ()
    | Except.ok (FlagStep.stop rem) => Except.ok (o, rem)
    | Except.ok (FlagStep.cont v rem) => goFlagParseF fuel v rem

/-- Go `flag.(*FlagSet).Parse`: consume leading flag tokens, carrying the
current value of the `-o` flag, and return its final value together with the
remaining (non-flag) arguments. -/
def goFlagParse (o : String) (as : List String) : Except Unit (String × List String) :=
  goFlagParseF (as.length + 1) o as

/-- Fuel-indexed form of the positional-argument loop of `run` (`main.go`
lines 115–120): repeat `fs.Parse`, pulling off the first remaining argument
as a positional each round, until none remain.  Each round consumes at least
one argument, so a fuel of `rem.length` suffices and agrees with the loop on
the empty-fuel (empty-list) case. -/
def collectLoopF : Nat → String → List String → List String →
    Except Unit (List String × String)
  | 0, o, _, acc => Except.ok (acc, o)
  | fuel + 1, o, rem, acc =>
    match rem with
    | [] => Except.ok (acc, o)
    | p :: rest =>
      match goFlagParse o rest with
      | Except.error _ => Except.error ()
      | Except.ok (o2, rem2) => collectLoopF fuel o2 rem2 (acc ++ (p :: []))

/-- The positional-argument loop, at its sufficient fuel. -/
def collectLoop (o : String) (rem acc : List String) :
    Except Unit (List String × String) :=
  collectLoopF rem.length o rem acc

/-- Command-line handling of `run` (`main.go` lines 107–126): an initial
`fs.Parse` of `os.Args[1:]`, the positional-collection loop, then the final
re-`Parse` of `os.Args[1:]` (which resets `-o` to its value among the leading
flags).  Returns the positional arguments and the output path. -/
def parseCmdline (osArgs1 : List String) : Except Unit (List String × String) :=
  match goFlagParse pkgbuildStr osArgs1 with
  | Except.error _ => Except.error ()
  | Except.ok (o1, rem1) =>
    match collectLoop o1 rem1 [] with
    | Except.error _ => Except.error ()
    | Except.ok (args, o2) =>
      match goFlagParse o2 osArgs1 with
      | Except.error _ => Except.error ()
      | Except.ok (o3, _) => Except.ok (args, o3)

/-- The supported VCS kind (`repoRoot.VCS.Name` must equal it, line 151). -/
def gitStr : String := "Git"

/-- Suffix of the default package name (line 164). -/
def gitSuffix : String := "-git"

/-- Failures of `getVersion` (`main.go` lines 232–255). -/
inductive FetchErr where
  | tempDirError
  | cloneError
  | cmdError (stderrText : String)
deriving DecidableEq

/-- Errors returned by `run`; `incorrectUsage` models the distinct
`IncorrectUsageError` type that `main` pattern-matches for. -/
inductive RunErr where
  | ttyError
  | destError
  | incorrectUsage
  | resolutionError (msg : String)
  | unsupportedVCS (name : String)
  | inputError
  | relError
  | fetchError (e : FetchErr)
deriving DecidableEq

/-- How a `run` invocation ends: a returned `error`/`nil`, the runtime
index-out-of-range panic from `args[0]` on an empty slice (line 144), or the
process exit performed by `flag.ExitOnError` on a bad flag. -/
inductive RunOutcome where
  | ret (r : Except RunErr Unit)
  | indexOOB
  | flagExit
deriving DecidableEq

/-- Result of `vcs.RepoRootForImportPath`, the fields `run` reads. -/
structure RepoRoot where
  Repo : String
  Root : String
  VCSName : String
deriving DecidableEq

/-- Outcomes of the external steps of `getVersion`: temp-dir creation,
`git clone`, and the version shell command (`cmd.Output`, whose error carries
the captured standard error). -/
structure FetchWorld where
  tempDirOk : Bool
  cloneOk : Bool
  cmdOut : Except String String
deriving DecidableEq

/-- All external inputs of one `run` invocation. -/
structure World where
  ttyOk : Bool
  osArgs1 : List String
  fs : String → Option String
  resolve : String → Except String RepoRoot
  pkgNameIn : Option String
  dependsIn : Option String
  binNameIn : Option String
  fetchW : FetchWorld
  renderFails : Bool
  flushedOut : String

/-- `getVersion` (`main.go` lines 232–255): temp dir, clone, run the version
pipeline, trim the trimmed-whitespace result; each step's failure is
returned. -/
def getVersion (fw : FetchWorld) : Except FetchErr String :=
  if fw.tempDirOk = false then Except.error FetchErr.tempDirError
  else if fw.cloneOk = false then Except.error FetchErr.cloneError
  else
    match fw.cmdOut with
    | Except.error _ => Except.error (FetchErr.cmdError eps)
    | Except.ok out => Except.ok (goTrimSpace out)

/-- `prompt` (`main.go` lines 213–230): `input` is the scanned line, `none`
when the scan fails (read error or closed stream); a non-empty trimmed line
is returned, an empty one resolves to the default. -/
def prompt (input : Option String) (dflt : String) : Except RunErr String :=
  match input with
  | none => Except.error RunErr.inputError
  | some line =>
    let v := goTrimSpace line
    Except.ok (if v = eps then dflt else v)

/-- What one `run` leaves behind: its outcome, the final filesystem, the bytes
written to the destination (file or stdout), and whether `tmpl.Execute`
returned an error that line 200 discarded. -/
structure RunResult where
  outcome : RunOutcome
  fs : String → Option String
  destWritten : String
  renderErrorDropped : Bool

/-- Functional update of the modelled filesystem. -/
def updateFs (fs : String → Option String) (p v : String) : String → Option String :=
  fun q => if q = p then some v else fs q

/-- `run` (`main.go` lines 98–211), step for step: open the TTY, parse the
command line, open/create the destination with `O_CREATE|O_EXCL` (stdout for
`-o -`), the `len(os.Args) < 2` usage check, `args[0]`, resolve the import
path, reject non-Git kinds, prompt for package name / dependencies / binary
name, compute the relative sub-path, join the background fetch, and execute
the template (whose error is discarded). -/
def run (w : World) : RunResult :=
  if w.ttyOk = false then ⟨RunOutcome.ret (Except.error RunErr.ttyError), w.fs, eps, false⟩
  else
    match parseCmdline w.osArgs1 with
    | Except.error _ => ⟨RunOutcome.flagExit, w.fs, eps, false⟩
    | Except.ok (args, outputPath) =>
      if outputPath ≠ dashStr ∧ (w.fs outputPath).isSome then
        ⟨RunOutcome.ret (Except.error RunErr.destError), w.fs, eps, false⟩
      else
        let fs1 := if outputPath = dashStr then w.fs else updateFs w.fs outputPath eps
        if w.osArgs1.length + 1 < 2 then
          ⟨RunOutcome.ret (Except.error RunErr.incorrectUsage), fs1, eps, false⟩
        else
          match args with
          | [] => ⟨RunOutcome.indexOOB, fs1, eps, false⟩
          | importPath :: _ =>
            match w.resolve importPath with
            | Except.error m =>
              ⟨RunOutcome.ret (Except.error (RunErr.resolutionError m)), fs1, eps, false⟩
            | Except.ok repoRoot =>
              if repoRoot.VCSName ≠ gitStr then
                ⟨RunOutcome.ret (Except.error (RunErr.unsupportedVCS repoRoot.VCSName)),
                  fs1, eps, false⟩
              else
                let baseName := goPathBase repoRoot.Root
                match prompt w.pkgNameIn (baseName ++ gitSuffix) with
                | Except.error e => ⟨RunOutcome.ret (Except.error e), fs1, eps, false⟩
                | Except.ok pkgName =>
                  match prompt w.dependsIn eps with
                  | Except.error e => ⟨RunOutcome.ret (Except.error e), fs1, eps, false⟩
                  | Except.ok dependsList =>
                    let depends := goFields dependsList
                    match goFilepathRel repoRoot.Root importPath with
                    | Except.error _ =>
                      ⟨RunOutcome.ret (Except.error RunErr.relError), fs1, eps, false⟩
                    | Except.ok rp =>
                      let relPath := if rp = dotStr then eps else rp
                      match prompt w.binNameIn (goPathBase importPath) with
                      | Except.error e => ⟨RunOutcome.ret (Except.error e), fs1, eps, false⟩
                      | Except.ok binName =>
                        match getVersion w.fetchW with
                        | Except.error fe =>
                          ⟨RunOutcome.ret (Except.error (RunErr.fetchError fe)), fs1, eps, false⟩
                        | Except.ok version =>
                          let d : TmplData :=
                            ⟨pkgName, baseName, version, repoRoot.Repo, repoRoot.Root,
                              depends, relPath, binName⟩
                          let content := if w.renderFails then w.flushedOut else tmplRender d
                          let fs2 := if outputPath = dashStr then fs1
                            else updateFs fs1 outputPath content
                          ⟨RunOutcome.ret (Except.ok ()), fs2, content, w.renderFails⟩

/-- Whether `errors.As(err, new(IncorrectUsageError))` holds. -/
def isIncorrectUsage : RunErr → Bool
  | RunErr.incorrectUsage => true
  | _ => false

/-- Observable end state of the process: exit code, and whether the usage
text was printed to standard error. -/
structure MainOut where
  exitCode : Nat
  usagePrinted : Bool
deriving DecidableEq

/-- `main` (`main.go` lines 257–267): exit 0 when `run` returns nil; print
the error and exit 1 otherwise, with the usage text added exactly for
`IncorrectUsageError`; a runtime panic or `flag.ExitOnError` exits 2. -/
def main (w : World) : MainOut :=
  match (run w).outcome with
  | RunOutcome.ret (Except.ok _) => ⟨0, false⟩
  | RunOutcome.ret (Except.error e) => ⟨1, isIncorrectUsage e⟩
  | RunOutcome.indexOOB => ⟨2, false⟩
  | RunOutcome.flagExit => ⟨2, false⟩

/-- The two unbuffered handoff channels of `run` (lines 155–156). -/
inductive Chan where
  | errC
  | versionC
deriving DecidableEq

/-- Sends of the background goroutine (lines 157–161), in program order. -/
def goroutineSends : List Chan :=
  Chan.errC :: Chan.versionC :: []

/-- Receives of the orchestrator after prompting completes (lines 190–193):
`<-errC` always; `<-versionC` only when the received error is nil, since a
non-nil error returns from `run` first. -/
def orchRecvs (fetchErr : Option FetchErr) : List Chan :=
  Chan.errC :: (match fetchErr with
    | some _ => []
    | none => Chan.versionC :: [])

/-- Rendezvous semantics of unbuffered channels for one sender and one
receiver running fixed sequential programs: a send completes exactly when the
receiver's next receive names the same channel; the first mismatch (or an
exhausted side) blocks both forever.  Returns the completed handoffs in
order. -/
def rendezvous : List Chan → List Chan → List Chan
  | s :: ss, r :: rs => if s = r then s :: rendezvous ss rs else []
  | _, _ => []

/-- Handoffs completed between the fetch goroutine and the orchestrator in a
run that reaches the fork point and finishes prompting, as a function of the
fetch outcome. -/
def completedHandoffs (fetchErr : Option FetchErr) : List Chan :=
  rendezvous goroutineSends (orchRecvs fetchErr)

/-! Concrete worlds used by the claim theorems and witnesses. -/

/-- The token `-o`. -/
def dashOTok : String := "-o"

/-- A concrete output file name. -/
def outTok : String := "out"

/-- A concrete import path equal to its repository root. -/
def impTok : String := "example.com/foo"

/-- A resolver answer whose repository kind is Git. -/
def rrGit : RepoRoot := { Repo := "https://example.com/foo", Root := impTok, VCSName := gitStr }

/-- A resolver answer whose repository kind is Mercurial. -/
def rrHg : RepoRoot := { Repo := "https://example.com/foo", Root := impTok, VCSName := "Mercurial" }

/-- Version-command output with a trailing newline. -/
def v12NlTok : String := "r12.abcdef0\n"

/-- The trimmed version string. -/
def v12Tok : String := "r12.abcdef0"

/-- A world in which every external step succeeds: one positional argument,
an openable TTY, a fresh default destination, a Git resolution, prompt lines
answered, and a fetch that prints `r12.abcdef0` plus newline. -/
def wOk : World :=
  { ttyOk := true
    osArgs1 := impTok :: []
    fs := fun _ => none
    resolve := fun _ => Except.ok rrGit
    pkgNameIn := some eps
    dependsIn := some eps
    binNameIn := some eps
    fetchW := { tempDirOk := true, cloneOk := true, cmdOut := Except.ok v12NlTok }
    renderFails := false
    flushedOut := eps }

/-- The world of the invocation `genpkgbuild-go -o out`: only the `-o` flag
and its value, no positional import path. -/
def wOnlyO : World := { wOk with osArgs1 := dashOTok :: outTok :: [] }

/-- The world of an invocation with no arguments at all. -/
def wNoArgs : World := { wOk with osArgs1 := [] }

/-- Claim C1 (code_bug evidence).  The claim says every invocation without a
positional import path — including `genpkgbuild-go -o out` — fails with
`IncorrectUsage` and gets the usage text.  With no arguments at all that is
what happens, but with only `-o out` the guard `len(os.Args) < 2` (line 141)
passes, `args[0]` (line 144) indexes an empty slice, and the process dies
with a runtime panic (exit status 2) instead: no `IncorrectUsage`, no usage
text. -/
theorem claim1_usage_check :
    (run wOnlyO).outcome = RunOutcome.indexOOB ∧
    main wOnlyO = ⟨2, false⟩ ∧
    (run wNoArgs).outcome = RunOutcome.ret (Except.error RunErr.incorrectUsage) ∧
    main wNoArgs = ⟨1, true⟩ := by
  decide

/-- The successful world, except that `tmpl.Execute` fails (for example the
destination device is full). -/
def wRenderFail : World := { wOk with renderFails := true }

/-- Claim C2 (code_bug evidence).  The claim says a render failure is
surfaced, printed to standard error, and the process exits 1.  Line 200
discards the error returned by `tmpl.Execute` and `run` returns `nil`, so a
run whose render fails still exits 0 with nothing surfaced. -/
theorem claim2_render_error_lost :
    (run wRenderFail).renderErrorDropped = true ∧
    (run wRenderFail).outcome = RunOutcome.ret (Except.ok ()) ∧
    main wRenderFail = ⟨0, false⟩ := by
  decide

/-- Claim C3: whenever resolution yields a repository kind other than Git,
`run` fails with the unsupported-VCS error (line 152) and nothing has been
written to the destination. -/
theorem claim3_unsupported_vcs (w : World) (imp outP : String)
    (rest : List String) (rr : RepoRoot)
    (htty : w.ttyOk = true)
    (hargs : parseCmdline w.osArgs1 = Except.ok (imp :: rest, outP))
    (hdest : outP = dashStr ∨ w.fs outP = none)
    (hlen : w.osArgs1 ≠ [])
    (hres : w.resolve imp = Except.ok rr)
    (hvcs : rr.VCSName ≠ gitStr) :
    (run w).outcome = RunOutcome.ret (Except.error (RunErr.unsupportedVCS rr.VCSName)) ∧
    (run w).destWritten = eps := by
  have hlen2 : ¬ (w.osArgs1.length + 1 < 2) := by
    have : w.osArgs1.length ≠ 0 := fun hh => hlen (List.eq_nil_of_length_eq_zero hh)
    omega
  rcases hdest with hd | hd <;>
    simp [run, htty, hargs, hlen2, hres, hvcs, hd]

/-- A world resolving to a Mercurial repository. -/
def wHg : World := { wOk with resolve := fun _ => Except.ok rrHg }

/-- Witness for C3 at the concrete Mercurial world. -/
theorem claim3_unsupported_vcs_holds :
    (run wHg).outcome = RunOutcome.ret (Except.error (RunErr.unsupportedVCS rrHg.VCSName)) ∧
    (run wHg).destWritten = eps :=
  claim3_unsupported_vcs wHg impTok pkgbuildStr [] rrHg rfl (by decide)
    (Or.inr rfl) (by decide) rfl (by decide)

/-- Claim C4: when a file already exists at the output path, opening with
`O_CREATE|O_EXCL` (line 135) fails, `run` returns that error, and the
filesystem — in particular the existing file — is left untouched. -/
theorem claim4_dest_exists (w : World) (args : List String) (outP c : String)
    (htty : w.ttyOk = true)
    (hargs : parseCmdline w.osArgs1 = Except.ok (args, outP))
    (hout : outP ≠ dashStr)
    (hex : w.fs outP = some c) :
    (run w).outcome = RunOutcome.ret (Except.error RunErr.destError) ∧
    (∀ p, (run w).fs p = w.fs p) ∧
    (run w).fs outP = some c ∧
    (run w).destWritten = eps := by
  simp [run, htty, hargs, hout, hex]

/-- A world whose default destination `PKGBUILD` already holds content. -/
def wExisting : World :=
  { wOk with fs := fun p => if p = pkgbuildStr then some outTok else none }

/-- Witness for C4 at a world where `PKGBUILD` already exists. -/
theorem claim4_dest_exists_holds :
    (run wExisting).outcome = RunOutcome.ret (Except.error RunErr.destError) ∧
    (∀ p, (run wExisting).fs p = wExisting.fs p) ∧
    (run wExisting).fs pkgbuildStr = some outTok ∧
    (run wExisting).destWritten = eps :=
  claim4_dest_exists wExisting (impTok :: []) pkgbuildStr outTok rfl (by decide)
    (by decide) (by decide)

/-- Claim C5: a prompted line that trims to empty resolves to the default
exactly, and a non-empty line resolves to its trimmed text (lines 225–228). -/
theorem claim5_prompt (line dflt : String) :
    (goTrimSpace line = eps → prompt (some line) dflt = Except.ok dflt) ∧
    (goTrimSpace line ≠ eps → prompt (some line) dflt = Except.ok (goTrimSpace line)) := by
  constructor <;> intro h <;> simp [prompt, h]

/-- A whitespace-only input line. -/
def wsTok : String := " \t  "

/-- An input line with surrounding whitespace. -/
def padTok : String := "  x "

/-- The trimmed content of `padTok`. -/
def xTok : String := "x"

/-- A concrete prompt default. -/
def dfltTok : String := "mypkg-git"

/-- Witness for C5 on a whitespace-only line and a padded line. -/
theorem claim5_prompt_holds :
    prompt (some wsTok) dfltTok = Except.ok dfltTok ∧
    prompt (some padTok) dfltTok = Except.ok (goTrimSpace padTok) ∧
    goTrimSpace padTok = xTok :=
  ⟨(claim5_prompt wsTok dfltTok).1 (by decide),
   (claim5_prompt padTok dfltTok).2 (by decide),
   by decide⟩

/-- Root used by the spec's relative-path example. -/
def rootEx : String := "example.com/foo/bar"

/-- Import path used by the spec's relative-path example. -/
def impEx : String := "example.com/foo/bar/cmd/baz"

/-- Expected relative sub-path of the example. -/
def cmdBazTok : String := "cmd/baz"

/-- Claim C6: the relative sub-path is the import path relative to the
repository root, with the same-path case normalised to the empty string; in
particular every path is at the empty sub-path relative to itself, and the
spec's example resolves to `cmd/baz`. -/
theorem claim6_relpath :
    (∀ p : String, relSubPath p p = Except.ok eps) ∧
    relSubPath rootEx impEx = Except.ok cmdBazTok ∧
    relSubPath rootEx rootEx = Except.ok eps := by
  refine ⟨fun p => ?_, by decide, by decide⟩
  simp [relSubPath, goFilepathRel, dotStr, eps]

/-- The dependency prompt input of the spec's example. -/
def fooBarTok : String := "foo bar"

/-- First dependency of the example. -/
def fooTok : String := "foo"

/-- Second dependency of the example. -/
def barTok : String := "bar"

/-- The expected rendering `('foo' 'bar')`. -/
def fooBarRendered : String :=
  "(" ++ sq ++ fooTok ++ sq ++ " " ++ sq ++ barTok ++ sq ++ ")"

/-- The expected rendering of an empty dependency list. -/
def emptyRendered : String := "()"

/-- Template data carrying the example dependency list. -/
def d7 : TmplData :=
  { PkgName := dfltTok, Dir := fooTok, PkgVer := v12Tok, Repo := rrGit.Repo,
    Root := rrGit.Root, Depends := goFields fooBarTok, Path := eps,
    BinName := fooTok }

/-- Claim C7: the dependency line is split on whitespace into an ordered
list (line 173) and rendered as a parenthesized, space-separated,
single-quoted list (template line 50): `"foo bar"` gives `('foo' 'bar')` and
empty input gives `()`. -/
theorem claim7_depends :
    goFields fooBarTok = fooTok :: barTok :: [] ∧
    depListRender (goFields fooBarTok) = fooBarRendered ∧
    goFields eps = [] ∧
    depListRender [] = emptyRendered ∧
    ("depends=" ++ fooBarRendered) ∈ tmplLines d7 := by
  decide

/-- The `pkgver=` line the spec's example expects. -/
def pkgverLineTok : String := "pkgver=" ++ v12Tok

/-- Claim C8: the fetched version is the command output with surrounding
whitespace trimmed (line 254), and a data record carrying that version
renders a `pkgver=` line that reads exactly `pkgver=r12.abcdef0`. -/
theorem claim8_version (fw : FetchWorld) (d : TmplData)
    (h1 : fw.tempDirOk = true) (h2 : fw.cloneOk = true)
    (h3 : fw.cmdOut = Except.ok v12NlTok)
    (h4 : d.PkgVer = v12Tok) :
    getVersion fw = Except.ok v12Tok ∧
    ("pkgver=" ++ htmlEscape d.PkgVer) ∈ tmplLines d ∧
    "pkgver=" ++ htmlEscape d.PkgVer = pkgverLineTok := by
  refine ⟨?_, ?_, ?_⟩
  · simp only [getVersion, h1, h2, h3]
    decide
  · exact List.Mem.tail _ (List.Mem.tail _ (List.Mem.head _))
  · rw [h4]
    decide

/-- A fetch whose version command prints `r12.abcdef0` and a newline. -/
def fw8 : FetchWorld := { tempDirOk := true, cloneOk := true, cmdOut := Except.ok v12NlTok }

/-- Template data carrying the trimmed version. -/
def d8 : TmplData :=
  { PkgName := dfltTok, Dir := fooTok, PkgVer := v12Tok, Repo := rrGit.Repo,
    Root := rrGit.Root, Depends := [], Path := eps, BinName := fooTok }

/-- Witness for C8 at the concrete fetch and data record. -/
theorem claim8_version_holds :
    getVersion fw8 = Except.ok v12Tok ∧
    ("pkgver=" ++ htmlEscape d8.PkgVer) ∈ tmplLines d8 ∧
    "pkgver=" ++ htmlEscape d8.PkgVer = pkgverLineTok :=
  claim8_version fw8 d8 rfl rfl rfl rfl

/-- Claim C9, counterexample.  The claim says both handoff channels complete
one write and one read even in runs where the fetch fails; but when the
fetched error is non-nil the orchestrator returns at line 191 without ever
receiving from `versionC`, so that channel completes zero handoffs (and the
goroutine stays blocked in its send, line 160). -/
theorem claim9_counterexample :
    (completedHandoffs (some FetchErr.cloneError)).count Chan.versionC = 0 ∧
    ¬ (completedHandoffs (some FetchErr.cloneError)).count Chan.versionC = 1 := by
  decide

/-- Claim C9, amended: in every run reaching the fork point whose prompting
completes, the error channel is written and read exactly once; the version
channel is written and read exactly once when the fetch succeeds, and zero
times when it fails. -/
theorem claim9_handoffs (fetchErr : Option FetchErr) :
    (completedHandoffs fetchErr).count Chan.errC = 1 ∧
    (completedHandoffs fetchErr).count Chan.versionC =
      (match fetchErr with
        | none => 1
        | some _ => 0) := by
  cases fetchErr with
  | none => decide
  | some e => exact ⟨rfl, rfl⟩

/-- The ampersand string. -/
def ampTok : String := "&"

/-- Its HTML entity form. -/
def ampEnt : String := "&amp;"

/-- The less-than string. -/
def ltTok : String := "<"

/-- Its HTML entity form. -/
def ltEnt : String := "&lt;"

/-- The greater-than string. -/
def gtTok : String := ">"

/-- Its HTML entity form. -/
def gtEnt : String := "&gt;"

/-- The double-quote string. -/
def quoTok : String := "\""

/-- Its HTML entity form. -/
def quoEnt : String := "&#34;"

/-- The entity form of a single quote. -/
def aposEnt : String := "&#39;"

/-- A package name containing an ampersand. -/
def aAmpB : String := "a&b"

/-- The `pkgname=` line rendered for `a&b`. -/
def pkgnameEsc : String := "pkgname=a&amp;b"

/-- Claim C10: because the template is parsed by `html/template`, every
interpolated field value is HTML-escaped in the rendered recipe: each of the
five HTML-special characters becomes its entity form, a package name `a&b`
renders as `pkgname=a&amp;b`, and rendering is not the identity on field
strings. -/
theorem claim10_escaping (d : TmplData) (hpn : d.PkgName = aAmpB) :
    htmlEscape ampTok = ampEnt ∧ htmlEscape ltTok = ltEnt ∧
    htmlEscape gtTok = gtEnt ∧ htmlEscape quoTok = quoEnt ∧
    htmlEscape sq = aposEnt ∧
    ("pkgname=" ++ htmlEscape d.PkgName) ∈ tmplLines d ∧
    "pkgname=" ++ htmlEscape d.PkgName = pkgnameEsc ∧
    htmlEscape aAmpB ≠ aAmpB := by
  refine ⟨by decide, by decide, by decide, by decide, by decide,
    List.Mem.head _, ?_, by decide⟩
  rw [hpn]
  decide

/-- Template data whose package name contains an ampersand. -/
def d10 : TmplData :=
  { PkgName := aAmpB, Dir := fooTok, PkgVer := v12Tok, Repo := rrGit.Repo,
    Root := rrGit.Root, Depends := [], Path := eps, BinName := fooTok }

/-- Witness for C10 at the concrete data record. -/
theorem claim10_escaping_holds :
    htmlEscape ampTok = ampEnt ∧ htmlEscape ltTok = ltEnt ∧
    htmlEscape gtTok = gtEnt ∧ htmlEscape quoTok = quoEnt ∧
    htmlEscape sq = aposEnt ∧
    ("pkgname=" ++ htmlEscape d10.PkgName) ∈ tmplLines d10 ∧
    "pkgname=" ++ htmlEscape d10.PkgName = pkgnameEsc ∧
    htmlEscape aAmpB ≠ aAmpB :=
  claim10_escaping d10 rfl

end Genpkgbuild
